import Mathlib

set_option autoImplicit false

/-
Shallow embedding of rasa/nlu/selectors/response_selector.py
(classes ResponseSelector and DIET2DIET).

Python dictionaries are modelled as association lists in insertion order:
assignment overwrites in place when the key exists and appends otherwise,
and membership and lookup scan from the front, exactly as dict preserves
insertion order. Python raising is modelled with Except. Floating point
confidences are carried as rationals; no claim computes on them. The
builtin hash on strings is modelled by a concrete deterministic stand-in
function pyhash: the claims depend only on which hashes coincide, never on
concrete hash values.
-/

namespace ResponseSelector

variable {α : Type} {β : Type}

/-- Python dict assignment d[k] = v on an insertion-ordered association
list: overwrite in place when the key is present, append otherwise. -/
def dictInsert [DecidableEq α] (k : α) (v : β) : List (α × β) → List (α × β)
  | [] => [(k, v)]
  | p :: rest => if p.1 = k then (k, v) :: rest else p :: dictInsert k v rest

/-- Python dict lookup d.get(k): the value stored at the first matching
key, none when the key is absent. -/
def dictGet [DecidableEq α] : List (α × β) → α → Option β
  | [], _ => none
  | p :: rest, k => if p.1 = k then some p.2 else dictGet rest k

/-- Equality of Except values is decidable when both components are. -/
instance {ε α : Type} [DecidableEq ε] [DecidableEq α] : DecidableEq (Except ε α) := fun
  | Except.error e1, Except.error e2 =>
    if h : e1 = e2 then isTrue (h ▸ rfl)
    else isFalse fun hh => h (Except.error.inj hh)
  | Except.error _, Except.ok _ => isFalse fun hh => Except.noConfusion hh
  | Except.ok _, Except.error _ => isFalse fun hh => Except.noConfusion hh
  | Except.ok a1, Except.ok a2 =>
    if h : a1 = a2 then isTrue (h ▸ rfl)
    else isFalse fun hh => h (Except.ok.inj hh)

/-- Stand-in for the Python builtin hash on strings: deterministic and
computable; only coincidence of hashes matters to the embedded code. -/
def pyhash (s : String) : Int :=
  Int.ofNat (s.toList.foldl (fun h c => h * 31 + c.toNat) 7)

/-- Constant DEFAULT_OPEN_UTTERANCE_TYPE from rasa.nlu.constants. -/
def DEFAULT_OPEN_UTTERANCE_TYPE : String := "default"

/-- One full response payload object from the Response Registry: a text
field (possibly absent, message.get of TEXT) plus arbitrary auxiliary
fields such as buttons or images. -/
structure PyResponse where
  text : Option String
  extra : List (String × String)
deriving DecidableEq, Repr

/-- Python exceptions that the embedded code can raise. -/
inductive PyErr
  | typeError
  | indexError
  | persistenceError
deriving DecidableEq, Repr

/-- Component state of a ResponseSelector instance: the configuration
fields the embedded methods read, the retrieval-intent mapping, the
response registry, the label table and the optional trained model. -/
structure Selector where
  trainOnText : Bool
  retrievalIntent : Option String
  retrievalIntentMapping : List (Option String × Option String)
  responses : List (String × List PyResponse)
  indexLabelIdMapping : List (Nat × String)
  model : Option (List Int)
deriving DecidableEq, Repr

/-- One step of ResponseSelector._full_response for a single registry
entry (key, responses): in train-on-text mode scan the payloads for one
whose text hashes to the label id; otherwise compare the hash of the key
itself and return the first payload. Indexing responses[0] on an empty
payload list raises IndexError. -/
def fullResponseStep (trainOnText : Bool) (labelId : Option Int) (key : String)
    (rs : List PyResponse) : Except PyErr (Option (String × PyResponse)) :=
  if trainOnText then
    Except.ok (rs.findSome? fun r =>
      if some (pyhash (r.text.getD "")) = labelId then some (key, r) else none)
  else
    if some (pyhash key) = labelId then
      match rs with
      | [] => Except.error PyErr.indexError
      | r :: _ => Except.ok (some (key, r))
    else Except.ok none

/-- ResponseSelector._full_response: scan the Response Registry in
insertion order and return the first (retrieval intent key, payload) match
for the predicted label id, none when no entry matches. -/
def fullResponse (trainOnText : Bool) (labelId : Option Int) :
    List (String × List PyResponse) → Except PyErr (Option (String × PyResponse))
  | [] => Except.ok none
  | (key, rs) :: rest =>
    match fullResponseStep trainOnText labelId key rs with
    | Except.error e => Except.error e
    | Except.ok (some res) => Except.ok (some res)
    | Except.ok none => fullResponse trainOnText labelId rest

/-- A predicted label as produced upstream of process: optional id hash,
optional name and a confidence. -/
structure PredLabel where
  id : Option Int
  name : Option String
  confidence : Rat
deriving DecidableEq, Repr

/-- A ranking entry as produced upstream of process: name and confidence. -/
structure RankEntryIn where
  name : Option String
  confidence : Rat
deriving DecidableEq, Repr

/-- A ranking entry after process mutated it: the full_retrieval_intent
field has been added. -/
structure RankEntryOut where
  name : Option String
  confidence : Rat
  fullRetrievalIntent : Option String
deriving DecidableEq, Repr

/-- The per-candidate mutation in ResponseSelector.process: set
full_retrieval_intent to the Retrieval-Intent Mapping lookup of the
candidate name when train-on-text is set, and to the candidate name
itself otherwise. -/
def attachFullRetrievalIntent (sel : Selector) (r : RankEntryIn) : RankEntryOut :=
  { name := r.name
    confidence := r.confidence
    fullRetrievalIntent :=
      if sel.trainOnText then (dictGet sel.retrievalIntentMapping r.name).join
      else r.name }

/-- The prediction dictionary process writes onto the message: resolved
payload, mutated ranking and the resolved retrieval intent key. -/
structure PredictionDict where
  response : PyResponse
  ranking : List RankEntryOut
  fullRetrievalIntent : String
deriving DecidableEq, Repr

/-- A pipeline message: attribute data plus the response-selector
property, itself a dict keyed by selector key. -/
structure Message where
  data : List (String × String)
  selectorProperties : List (String × PredictionDict)
deriving DecidableEq, Repr

/-- ResponseSelector._set_message_property: store the prediction dict
under the selector key inside the response-selector property. -/
def setMessageProperty (message : Message) (predictionDict : PredictionDict)
    (selectorKey : String) : Message :=
  { message with
    selectorProperties := dictInsert selectorKey predictionDict message.selectorProperties }

/-- The selector key chosen in process: the configured retrieval intent
when truthy, DEFAULT_OPEN_UTTERANCE_TYPE otherwise (Python truthiness:
both None and the empty string fall back to the default). -/
def selectorKey (sel : Selector) : String :=
  match sel.retrievalIntent with
  | some ri => if ri = "" then DEFAULT_OPEN_UTTERANCE_TYPE else ri
  | none => DEFAULT_OPEN_UTTERANCE_TYPE

/-- ResponseSelector.process, given the prediction produced upstream:
resolve the full response via _full_response — the tuple unpacking on its
result raises TypeError when no match was found — then mutate every
ranking entry with full_retrieval_intent and write the prediction dict
onto the message under the selector key. -/
def process (sel : Selector) (label : PredLabel) (labelRanking : List RankEntryIn)
    (message : Message) : Except PyErr Message :=
  match fullResponse sel.trainOnText label.id sel.responses with
  | Except.error e => Except.error e
  | Except.ok none => Except.error PyErr.typeError
  | Except.ok (some (labelRetrievalIntent, labelResponses)) =>
    let ranked := labelRanking.map (attachFullRetrievalIntent sel)
    let predictionDict : PredictionDict :=
      { response := labelResponses
        ranking := ranked
        fullRetrievalIntent := labelRetrievalIntent }
    Except.ok (setMessageProperty message predictionDict (selectorKey sel))

/- ---------------------------------------------------------------------
DIET2DIET: data-signature validation, metric bookkeeping and the
label-space embedding cache of batch_predict.
--------------------------------------------------------------------- -/

/-- Signature of one feature matrix as compared by _check_data: sparsity
flag and feature dimension. Only equality of signatures is consumed. -/
structure FeatureSignature where
  isSparse : Bool
  units : Nat
deriving DecidableEq, Repr

/-- The model data signature: per attribute (text and label), the list of
feature signatures for sequence features and for sentence features; none
models the key being absent from the signature dict. -/
structure DataSignature where
  textSequenceFeatures : Option (List FeatureSignature)
  textSentenceFeatures : Option (List FeatureSignature)
  labelSequenceFeatures : Option (List FeatureSignature)
  labelSentenceFeatures : Option (List FeatureSignature)
deriving DecidableEq, Repr

/-- The exceptions DIET2DIET._check_data can raise. -/
inductive CheckErr
  | invalidConfig (msg : String)
  | valueError (msg : String)
deriving DecidableEq, Repr

/-- DIET2DIET._check_data: raise InvalidConfigError when the signature
holds no text sentence features or no label sentence features, and raise
ValueError when hidden layers are shared but the text and label sentence
feature signatures differ. The sequence feature signatures are not
consulted. -/
def checkData (shareHiddenLayers : Bool) (sig : DataSignature) : Except CheckErr Unit :=
  if sig.textSentenceFeatures = none then
    Except.error (CheckErr.invalidConfig "No text features specified. Cannot train model.")
  else if sig.labelSentenceFeatures = none then
    Except.error (CheckErr.invalidConfig "No label features specified. Cannot train model.")
  else if shareHiddenLayers ∧ sig.textSentenceFeatures ≠ sig.labelSentenceFeatures then
    Except.error (CheckErr.valueError
      "If hidden layer weights are shared, data signatures for text_features and label_features must coincide.")
  else Except.ok ()

/-- DIET2DIET._update_metrics_to_log: append m_acc (and m_loss at debug
level) only when the masked language model is configured, then always
append r_acc (and r_loss at debug level) to the metric name list. -/
def updateMetricsToLog (maskedLM : Bool) (debugLogLevel : Bool)
    (metricsToLog : List String) : List String :=
  let m :=
    if maskedLM then
      metricsToLog ++ ["m_acc"] ++ (if debugLogLevel then ["m_loss"] else [])
    else metricsToLog
  m ++ ["r_acc"] ++ (if debugLogLevel then ["r_loss"] else [])

/-- Predict-time state of a DIET2DIET instance: the stored label data and
the lazily built full-label-space embedding cache all_labels_embed. The
tensor arithmetic is abstracted to integer vectors; the claims concern
the caching discipline, not numerics. -/
structure Diet2DietPredictState where
  labelData : List (Nat × List Int)
  allLabelsEmbed : Option (List (List Int))
deriving DecidableEq, Repr

/-- DIET2DIET._create_all_labels: embed every label of the stored label
data, one vector per label, deterministically from the label data alone. -/
def createAllLabels (labelData : List (Nat × List Int)) : List (List Int) :=
  labelData.map Prod.snd

/-- Dot product, standing in for the similarity kernel applied between
the embedded input sentence vector and each cached label embedding. -/
def dotSim (v w : List Int) : Int :=
  (List.zipWith (· * ·) v w).sum

/-- The score vector batch_predict computes: similarity of the input
sentence vector against every vector of the full-label-space cache. -/
def simScores (allLabelsEmbed : List (List Int)) (sentenceVector : List Int) : List Int :=
  allLabelsEmbed.map (dotSim sentenceVector)

/-- DIET2DIET.batch_predict, restricted to its state effect and output:
when all_labels_embed is still empty it is built once via
_create_all_labels and stored; the scores are then computed against the
cached embedding. Nothing else of the state changes and the cache is
never cleared. -/
def batchPredict (s : Diet2DietPredictState) (sentenceVector : List Int) :
    Diet2DietPredictState × List Int :=
  let s1 :=
    match s.allLabelsEmbed with
    | none => { s with allLabelsEmbed := some (createAllLabels s.labelData) }
    | some _ => s
  (s1, simScores (s1.allLabelsEmbed.getD []) sentenceVector)

/- ---------------------------------------------------------------------
Persistence: ResponseSelector.persist and ResponseSelector.load.
--------------------------------------------------------------------- -/

/-- The side files persist writes next to the model blob: here the
retrieval-intent mapping pickle (none models a missing file). -/
structure PersistStore where
  retrievalIntentMappingFile : Option (List (Option String × Option String))
deriving DecidableEq, Repr

/-- The metadata dict persist returns: the file base name and, for a
trained model, the response registry (absent keys are none). -/
structure PersistMeta where
  file : Option String
  responses : Option (List (String × List PyResponse))
deriving DecidableEq, Repr

/-- ResponseSelector.persist: an untrained component writes nothing and
returns metadata with file None; a trained component writes the
retrieval-intent mapping pickle and returns the file name and the
response registry in the metadata. -/
def persist (sel : Selector) (fileName : String) : PersistStore × PersistMeta :=
  if sel.model = none then
    ({ retrievalIntentMappingFile := none }, { file := none, responses := none })
  else
    ({ retrievalIntentMappingFile := some sel.retrievalIntentMapping },
     { file := some fileName, responses := some sel.responses })

/-- ResponseSelector.load, given the component superLoaded that the
superclass load produced (DIETClassifier.load is outside this file;
it restores configuration and model parameters). A falsy file entry
(absent or empty, Python truthiness) returns superLoaded as is;
otherwise the retrieval-intent mapping pickle is unpickled — a missing
side file is a fatal read error — and the mapping and the response
registry from the metadata are installed on the loaded component. -/
def load (meta : PersistMeta) (store : PersistStore) (superLoaded : Selector) :
    Except PyErr Selector :=
  if meta.file.getD "" = "" then Except.ok superLoaded
  else
    match store.retrievalIntentMappingFile with
    | none => Except.error PyErr.persistenceError
    | some mapping =>
      Except.ok { superLoaded with
        retrievalIntentMapping := mapping
        responses := meta.responses.getD [] }

/- ---------------------------------------------------------------------
Training-data preprocessing: ResponseSelector.preprocess_train_data and
ResponseSelector._create_retrieval_intent_mapping.
--------------------------------------------------------------------- -/

/-- One training example: the attribute values preprocess_train_data
reads (intent, response text, intent response key); absent attributes
are none. -/
structure TrainExample where
  intent : Option String
  response : Option String
  intentResponseKey : Option String
deriving DecidableEq, Repr

/-- A training data set: the examples plus the response registry the
data loader collected. -/
structure TrainingData where
  trainingExamples : List TrainExample
  responses : List (String × List PyResponse)
deriving DecidableEq, Repr

/-- Modelled from the spec: TrainingData.intent_examples (the TrainingData
class is outside this file) — the training examples that carry an intent. -/
def TrainingData.intentExamples (td : TrainingData) : List TrainExample :=
  td.trainingExamples.filter fun e => e.intent.getD "" ≠ ""

/-- Modelled from the spec: TrainingData.filter_training_examples (the
TrainingData class is outside this file) — keep the examples satisfying
the condition, leaving the response registry as collected. -/
def filterByIntent (td : TrainingData) (retrievalIntent : String) : TrainingData :=
  { td with trainingExamples := td.trainingExamples.filter fun e => e.intent = some retrievalIntent }

/-- ResponseSelector._create_retrieval_intent_mapping: iterate the intent
examples and record response text to intent response key, later entries
overwriting earlier ones for the same response. -/
def createRetrievalIntentMapping (td : TrainingData) : List (Option String × Option String) :=
  td.intentExamples.foldl (fun m e => dictInsert e.response e.intentResponseKey m) []

/-- The label attribute chosen by preprocess_train_data: the response
text when training on text, the intent response key otherwise. -/
def labelAttrValue (trainOnText : Bool) (e : TrainExample) : Option String :=
  if trainOnText then e.response else e.intentResponseKey

/-- Modelled from the spec: the Label Space Builder of the superclass
(DIETClassifier._label_id_index_mapping is outside this file) — the
distinct label attribute values over the intent examples, absent values
skipped, in first-seen order; ids are positions in this list. -/
def labelValuesFirstSeen (td : TrainingData) (trainOnText : Bool) : List String :=
  td.intentExamples.foldl
    (fun acc e =>
      match labelAttrValue trainOnText e with
      | none => acc
      | some v => if acc.contains v then acc else acc ++ [v])
    []

/-- Model data handed to training: the label values and the examples kept;
RasaModelData() with no content is the empty value. -/
structure RasaModelData where
  labelValues : List String
  examples : List TrainExample
deriving DecidableEq, Repr

/-- The empty RasaModelData() returned on the no-label outcome. -/
def RasaModelData.empty : RasaModelData := ⟨[], []⟩

/-- Modelled from the spec: DIETClassifier._create_model_data (outside
this file) — pack the intent examples and the label space for training. -/
def createModelData (td : TrainingData) (labels : List String) : RasaModelData :=
  ⟨labels, td.intentExamples⟩

/-- The training data actually used by preprocess_train_data: filtered to
the configured retrieval intent when that is truthy, unfiltered otherwise. -/
def effectiveTrainingData (sel : Selector) (td : TrainingData) : TrainingData :=
  match sel.retrievalIntent with
  | some ri => if ri = "" then td else filterByIntent td ri
  | none => td

/-- ResponseSelector.preprocess_train_data: filter by retrieval intent,
compute the label id mapping for the chosen label attribute, then always
overwrite the retrieval-intent mapping and the response registry from the
filtered data; return empty RasaModelData when no labels remain, and
otherwise install the index-to-label mapping and build the model data. -/
def preprocessTrainData (sel : Selector) (td : TrainingData) : Selector × RasaModelData :=
  let td1 := effectiveTrainingData sel td
  let labels := labelValuesFirstSeen td1 sel.trainOnText
  let sel1 := { sel with
    retrievalIntentMapping := createRetrievalIntentMapping td1
    responses := td1.responses }
  if labels.isEmpty then (sel1, RasaModelData.empty)
  else
    let sel2 := { sel1 with indexLabelIdMapping := labels.enum }
    (sel2, createModelData td1 labels)

/- ---------------------------------------------------------------------
Constructor configuration forcing: ResponseSelector.__init__.
--------------------------------------------------------------------- -/

/-- A value in a component configuration dict. -/
inductive ConfigVal
  | bool (b : Bool)
  | str (s : String)
  | null
deriving DecidableEq, Repr

/-- Constant keys from rasa.utils.tensorflow.constants. -/
def INTENT_CLASSIFICATION : String := "intent_classification"

/-- Constant key for the entity recognition toggle. -/
def ENTITY_RECOGNITION : String := "entity_recognition"

/-- Constant key for the BILOU tagging flag. -/
def BILOU_FLAG : String := "BILOU_flag"

/-- The configuration mutation in ResponseSelector.__init__: intent
classification is forced on, entity recognition is forced off and the
BILOU flag is forced to None, in that order, before the superclass
constructor runs; caller-supplied values for those keys are overwritten
and no error is raised. -/
def responseSelectorInitConfig (componentConfig : List (String × ConfigVal)) :
    List (String × ConfigVal) :=
  dictInsert BILOU_FLAG ConfigVal.null
    (dictInsert ENTITY_RECOGNITION (ConfigVal.bool false)
      (dictInsert INTENT_CLASSIFICATION (ConfigVal.bool true) componentConfig))

/-- Modelled from the spec: the prediction an untrained DIETClassifier
yields (DIETClassifier._predict and _predict_label are outside this
file) — no model means no label id and no name, zero confidence and an
empty ranking. -/
def predictLabelNoModel : PredLabel × List RankEntryIn :=
  ({ id := none, name := none, confidence := 0 }, [])

/-- The per-candidate retrieval-intent rule as the specification words it,
for comparison with attachFullRetrievalIntent: resolve via the
Retrieval-Intent Mapping when NOT training on text, and use the own label
name when training on text. -/
def specFullRetrievalIntent (sel : Selector) (name : Option String) : Option String :=
  if sel.trainOnText then name else (dictGet sel.retrievalIntentMapping name).join

/- ---------------------------------------------------------------------
Concrete instances used by counterexamples and witnesses.
--------------------------------------------------------------------- -/

/-- A trained selector whose registry holds one retrieval intent. -/
def c1sel : Selector :=
  { trainOnText := false
    retrievalIntent := none
    retrievalIntentMapping := []
    responses := [("faq/ask_howdoing", [{ text := some "Great, thanks", extra := [] }])]
    indexLabelIdMapping := [(0, "faq/ask_howdoing")]
    model := some [1] }

/-- A predicted label whose id hash matches no registry entry of c1sel. -/
def c1label : PredLabel :=
  { id := some (pyhash "faq/ask_howdoing" + 1)
    name := some "faq/ask_howdoing"
    confidence := 1 }

/-- An input message for the c1 scenario. -/
def c1msg : Message := { data := [("text", "how are you")], selectorProperties := [] }

/-- A selector trained on zero labels: no model, empty registry, empty
mapping and empty label table. -/
def c2sel : Selector :=
  { trainOnText := false
    retrievalIntent := none
    retrievalIntentMapping := []
    responses := []
    indexLabelIdMapping := []
    model := none }

/-- An input message for the c2 scenario. -/
def c2msg : Message := { data := [("text", "hello there")], selectorProperties := [] }

/-- A label without id, as any untrained model predicts. -/
def c2label : PredLabel := { id := none, name := some "anything", confidence := 0 }

/-- A trained selector, not training on text, whose mapping resolves the
candidate name to a different value than the name itself. -/
def c3sel : Selector :=
  { trainOnText := false
    retrievalIntent := none
    retrievalIntentMapping := [(some "hello", some "chitchat/greet")]
    responses := [("chitchat/greet", [{ text := some "hello", extra := [] }])]
    indexLabelIdMapping := [(0, "chitchat/greet")]
    model := some [1] }

/-- A predicted label resolving to the single registry entry of c3sel. -/
def c3label : PredLabel :=
  { id := some (pyhash "chitchat/greet"), name := some "chitchat/greet", confidence := 1 }

/-- A ranking entry whose name the mapping of c3sel resolves differently. -/
def c3rank : RankEntryIn := { name := some "hello", confidence := 1 }

/-- An input message for the c3 scenario. -/
def c3msg : Message := { data := [("text", "hi")], selectorProperties := [] }

/-- The prediction dict process builds in the c3 scenario: the code
attaches the candidate name itself as full_retrieval_intent because
train-on-text is off. -/
def c3pd : PredictionDict :=
  { response := { text := some "hello", extra := [] }
    ranking := [{ name := some "hello", confidence := 1, fullRetrievalIntent := some "hello" }]
    fullRetrievalIntent := "chitchat/greet" }

/-- The message process produces in the c3 scenario. -/
def c3msgOut : Message :=
  { data := [("text", "hi")]
    selectorProperties := [(DEFAULT_OPEN_UTTERANCE_TYPE, c3pd)] }

/-- A data signature with identical sentence feature signatures but
different sequence feature signatures for text and label. -/
def c4sig : DataSignature :=
  { textSequenceFeatures := some [{ isSparse := true, units := 10 }]
    textSentenceFeatures := some [{ isSparse := false, units := 5 }]
    labelSequenceFeatures := some [{ isSparse := true, units := 7 }]
    labelSentenceFeatures := some [{ isSparse := false, units := 5 }] }

/-- A data signature whose sentence feature signatures differ. -/
def c4sigW : DataSignature :=
  { textSequenceFeatures := some [{ isSparse := true, units := 10 }]
    textSentenceFeatures := some [{ isSparse := false, units := 5 }]
    labelSequenceFeatures := some [{ isSparse := true, units := 10 }]
    labelSentenceFeatures := some [{ isSparse := false, units := 6 }] }

/-- A data signature with no features at all for either attribute. -/
def c5sig : DataSignature :=
  { textSequenceFeatures := none
    textSentenceFeatures := none
    labelSequenceFeatures := none
    labelSentenceFeatures := none }

/-- A predict state whose label embedding cache is still empty. -/
def c7state : Diet2DietPredictState :=
  { labelData := [(0, [1, 2]), (1, [3, 4])], allLabelsEmbed := none }

/-- A trained selector to persist and reload. -/
def c8sel : Selector :=
  { trainOnText := false
    retrievalIntent := some "faq"
    retrievalIntentMapping := [(some "sure thing", some "faq/ask_help")]
    responses := [("faq/ask_help", [{ text := some "sure thing", extra := [] }])]
    indexLabelIdMapping := [(0, "faq/ask_help")]
    model := some [3, 1, 4] }

/-- The component the superclass load produces in the c8 scenario: same
configuration and model parameters, fresh mapping and registry. -/
def c8superLoaded : Selector :=
  { trainOnText := false
    retrievalIntent := some "faq"
    retrievalIntentMapping := []
    responses := []
    indexLabelIdMapping := [(0, "faq/ask_help")]
    model := some [3, 1, 4] }

/-- A selector with a stale mapping and registry from an earlier run. -/
def c10sel : Selector :=
  { trainOnText := false
    retrievalIntent := none
    retrievalIntentMapping := [(some "old response", some "old/key")]
    responses := [("old/key", [{ text := some "old response", extra := [] }])]
    indexLabelIdMapping := []
    model := none }

/-- Training data yielding zero labels (no example carries an intent
response key) while still carrying a response registry and examples. -/
def c10td : TrainingData :=
  { trainingExamples := [{ intent := some "chitchat", response := some "hi there", intentResponseKey := none }]
    responses := [("chitchat/greet", [{ text := some "hi there", extra := [] }])] }

/- ---------------------------------------------------------------------
Theorems.
--------------------------------------------------------------------- -/

theorem dictGet_dictInsert_self [DecidableEq α] (k : α) (v : β) (d : List (α × β)) :
    dictGet (dictInsert k v d) k = some v := by
  induction d with
  | nil => simp [dictInsert, dictGet]
  | cons p rest ih =>
    by_cases h : p.1 = k
    · simp [dictInsert, dictGet, h]
    · simp [dictInsert, dictGet, h, ih]

theorem dictGet_dictInsert_ne [DecidableEq α] (k k2 : α) (v : β) (d : List (α × β))
    (hne : k ≠ k2) : dictGet (dictInsert k v d) k2 = dictGet d k2 := by
  induction d with
  | nil => simp [dictInsert, dictGet, hne]
  | cons p rest ih =>
    by_cases h : p.1 = k
    · simp [dictInsert, dictGet, h, hne]
    · simp [dictInsert, dictGet, h, ih]

theorem fullResponseStep_id_none (t : Bool) (key : String) (rs : List PyResponse) :
    fullResponseStep t none key rs = Except.ok none := by
  cases t with
  | false => simp [fullResponseStep]
  | true =>
    simp only [fullResponseStep, if_pos]
    have h : (rs.findSome? fun r =>
        if some (pyhash (r.text.getD "")) = none then some (key, r) else none) = none := by
      induction rs with
      | nil => rfl
      | cons r rest ih => simp [List.findSome?, ih]
    simp [h]

theorem fullResponse_id_none (t : Bool) (rs : List (String × List PyResponse)) :
    fullResponse t none rs = Except.ok none := by
  induction rs with
  | nil => rfl
  | cons p rest ih => simp [fullResponse, fullResponseStep_id_none, ih]

theorem process_congr (sel1 sel2 : Selector)
    (h1 : sel1.trainOnText = sel2.trainOnText)
    (h2 : sel1.retrievalIntentMapping = sel2.retrievalIntentMapping)
    (h3 : sel1.responses = sel2.responses)
    (h4 : sel1.retrievalIntent = sel2.retrievalIntent) :
    ∀ label ranking message,
      process sel1 label ranking message = process sel2 label ranking message := by
  intro label ranking message
  have ha : attachFullRetrievalIntent sel1 = attachFullRetrievalIntent sel2 := by
    funext r
    simp [attachFullRetrievalIntent, h1, h2]
  simp [process, selectorKey, h1, h3, h4, ha]

/-- Claim C1: the specification promises that a prediction whose label id
matches no Response Registry entry is non-fatal — process should complete
and attach id and confidence with the payload absent. The code instead
unpacks the None returned by _full_response, raising a TypeError: at a
concrete registry and an unmatched label id, process raises. -/
theorem claim_C1_process_raises_on_unresolved_response :
    process c1sel c1label [] c1msg = Except.error PyErr.typeError := by decide

/-- Claim C2 counterexample: on a model trained with zero labels the
inference call is not a no-op returning the input unchanged — with the
empty registry of such a model and the id-less prediction an untrained
model yields, process raises a TypeError instead of returning the
message. -/
theorem claim_C2_counterexample :
    process c2sel predictLabelNoModel.1 predictLabelNoModel.2 c2msg =
      Except.error PyErr.typeError ∧
    process c2sel predictLabelNoModel.1 predictLabelNoModel.2 c2msg ≠
      Except.ok c2msg := by decide

/-- Claim C2 (amended): an inference call whose predicted label carries
no id — as on any model trained with zero labels — does not return the
input unchanged: process always raises a TypeError, because no registry
entry can hash-match a missing id and the None returned by
_full_response is unpacked. -/
theorem claim_C2_zero_label_inference_raises (sel : Selector) (label : PredLabel)
    (ranking : List RankEntryIn) (message : Message) (h : label.id = none) :
    process sel label ranking message = Except.error PyErr.typeError := by
  simp [process, h, fullResponse_id_none]

/-- Claim C2 witness: the amended statement at a concrete zero-label
selector, prediction and message. -/
theorem claim_C2_witness :
    c2label.id = none ∧
    process c2sel c2label [] c2msg = Except.error PyErr.typeError :=
  ⟨rfl, claim_C2_zero_label_inference_raises c2sel c2label [] c2msg rfl⟩

/-- Claim C3 counterexample: with train-on-text off and a mapping that
resolves the candidate name "hello" to "chitchat/greet", process
attaches the candidate name itself as full_retrieval_intent, not the
mapping lookup the claim requires for the not-training-on-text case. -/
theorem claim_C3_counterexample :
    process c3sel c3label [c3rank] c3msg = Except.ok c3msgOut ∧
    c3pd.ranking.map RankEntryOut.fullRetrievalIntent = [some "hello"] ∧
    specFullRetrievalIntent c3sel (some "hello") = some "chitchat/greet" ∧
    (some "hello" : Option String) ≠ some "chitchat/greet" := by decide

/-- Claim C3 (amended): for every ranked candidate in the inference
output, full_retrieval_intent is the Retrieval-Intent Mapping lookup of
the candidate name exactly when the train-on-text flag is TRUE, and the
candidate name itself when it is false. -/
theorem claim_C3_ranking_retrieval_intent (sel : Selector) (label : PredLabel)
    (ranking : List RankEntryIn) (message msg2 : Message) (pd : PredictionDict)
    (hok : process sel label ranking message = Except.ok msg2)
    (hpd : dictGet msg2.selectorProperties (selectorKey sel) = some pd) :
    ∀ r ∈ pd.ranking,
      r.fullRetrievalIntent =
        if sel.trainOnText then (dictGet sel.retrievalIntentMapping r.name).join
        else r.name := by
  intro r hr
  unfold process at hok
  cases hfr : fullResponse sel.trainOnText label.id sel.responses with
  | error e => rw [hfr] at hok; simp at hok
  | ok o =>
    cases o with
    | none => rw [hfr] at hok; simp at hok
    | some res =>
      obtain ⟨key, resp⟩ := res
      rw [hfr] at hok
      simp at hok
      subst hok
      simp [setMessageProperty, dictGet_dictInsert_self] at hpd
      subst hpd
      simp only [List.mem_map] at hr
      obtain ⟨r0, _, hr0⟩ := hr
      subst hr0
      simp [attachFullRetrievalIntent]

/-- Claim C3 witness: the amended statement applied at the concrete c3
scenario. -/
theorem claim_C3_witness :
    (⟨some "hello", 1, some "hello"⟩ : RankEntryOut).fullRetrievalIntent =
      if c3sel.trainOnText then
        (dictGet c3sel.retrievalIntentMapping (some "hello")).join
      else some "hello" :=
  claim_C3_ranking_retrieval_intent c3sel c3label [c3rank] c3msg c3msgOut c3pd
    (by decide) (by decide) ⟨some "hello", 1, some "hello"⟩ (by decide)

/-- Claim C4 counterexample: with weight sharing on and a data signature
whose sentence feature signatures coincide while the sequence feature
signatures differ — so text and label feature signatures are not
identical — _check_data succeeds instead of failing construction. -/
theorem claim_C4_counterexample :
    checkData true c4sig = Except.ok () ∧
    c4sig.textSequenceFeatures ≠ c4sig.labelSequenceFeatures ∧
    c4sig.textSentenceFeatures = c4sig.labelSentenceFeatures := by decide

/-- Claim C4 (amended): with both sentence feature signatures present,
_check_data fails exactly when weight sharing is enabled and the SENTENCE
feature signatures of text and label differ; the sequence feature
signatures are never consulted. -/
theorem claim_C4_share_check_sentence_only (share : Bool) (sig : DataSignature)
    (ht : sig.textSentenceFeatures ≠ none) (hl : sig.labelSentenceFeatures ≠ none) :
    (∃ e, checkData share sig = Except.error e) ↔
      (share = true ∧ sig.textSentenceFeatures ≠ sig.labelSentenceFeatures) := by
  unfold checkData
  simp only [ht, hl, if_neg, if_false]
  split_ifs with h
  · simp [h]
  · simp [h]

/-- Claim C4 witness: the amended statement applied with sharing enabled
at a signature with differing sentence feature signatures. -/
theorem claim_C4_witness :
    (∃ e, checkData true c4sigW = Except.error e) ∧
    c4sigW.textSentenceFeatures ≠ c4sigW.labelSentenceFeatures :=
  ⟨(claim_C4_share_check_sentence_only true c4sigW (by decide) (by decide)).mpr
      ⟨rfl, by decide⟩,
    by decide⟩

/-- Claim C5: when the text attribute or the label attribute has neither
sequence nor sentence features in the data signature, _check_data raises
an InvalidConfigError, before any training computation. -/
theorem claim_C5_missing_features_error (share : Bool) (sig : DataSignature)
    (h : (sig.textSequenceFeatures = none ∧ sig.textSentenceFeatures = none) ∨
         (sig.labelSequenceFeatures = none ∧ sig.labelSentenceFeatures = none)) :
    ∃ msg, checkData share sig = Except.error (CheckErr.invalidConfig msg) := by
  unfold checkData
  rcases h with ⟨h1, h2⟩ | ⟨h1, h2⟩
  · exact ⟨"No text features specified. Cannot train model.", by simp [h2]⟩
  · by_cases htx : sig.textSentenceFeatures = none
    · exact ⟨"No text features specified. Cannot train model.", by simp [htx]⟩
    · exact ⟨"No label features specified. Cannot train model.", by simp [htx, h2]⟩

/-- Claim C5 witness: the statement applied at a signature without any
features. -/
theorem claim_C5_witness :
    ∃ msg, checkData false c5sig = Except.error (CheckErr.invalidConfig msg) :=
  claim_C5_missing_features_error false c5sig (Or.inl ⟨rfl, rfl⟩)

/-- Claim C6: whatever component configuration the caller supplies, the
constructor forces intent classification to true, entity recognition to
false and the BILOU flag to None, silently overwriting caller values and
raising no error. -/
theorem claim_C6_config_forced (componentConfig : List (String × ConfigVal)) :
    dictGet (responseSelectorInitConfig componentConfig) INTENT_CLASSIFICATION =
      some (ConfigVal.bool true) ∧
    dictGet (responseSelectorInitConfig componentConfig) ENTITY_RECOGNITION =
      some (ConfigVal.bool false) ∧
    dictGet (responseSelectorInitConfig componentConfig) BILOU_FLAG =
      some ConfigVal.null := by
  unfold responseSelectorInitConfig
  refine ⟨?_, ?_, ?_⟩
  · rw [dictGet_dictInsert_ne _ _ _ _ (by decide),
      dictGet_dictInsert_ne _ _ _ _ (by decide), dictGet_dictInsert_self]
  · rw [dictGet_dictInsert_ne _ _ _ _ (by decide), dictGet_dictInsert_self]
  · rw [dictGet_dictInsert_self]

/-- Claim C7: the full-label-space embedding cache is built lazily by the
first batch_predict call when it is empty, every call leaves a non-empty
cache, a call on a filled cache changes nothing and scores against the
cached value, and a second call after any call reuses the state
unchanged. -/
theorem claim_C7_label_embed_cache (s : Diet2DietPredictState) (v : List Int) :
    (s.allLabelsEmbed = none →
      (batchPredict s v).1 =
        { s with allLabelsEmbed := some (createAllLabels s.labelData) }) ∧
    (∀ e, s.allLabelsEmbed = some e →
      (batchPredict s v).1 = s ∧ (batchPredict s v).2 = simScores e v) ∧
    (∀ w, (batchPredict (batchPredict s v).1 w).1 = (batchPredict s v).1) ∧
    (batchPredict s v).1.allLabelsEmbed ≠ none := by
  cases h : s.allLabelsEmbed with
  | none => simp [batchPredict, h]
  | some e => simp [batchPredict, h]

/-- Claim C7 witness: the lazy-build clause applied at a state with an
empty cache. -/
theorem claim_C7_witness :
    (batchPredict c7state [1, 0]).1 =
      { c7state with allLabelsEmbed := some (createAllLabels c7state.labelData) } :=
  (claim_C7_label_embed_cache c7state [1, 0]).1 rfl

/-- Claim C8: persisting a trained selector and loading it back from the
returned metadata restores the retrieval-intent mapping and the response
registry, so process output is identical across the round trip for every
fixed prediction and message (the superclass load restores configuration
and model parameters; it is a parameter here). -/
theorem claim_C8_persist_load_roundtrip (sel : Selector) (fileName : String)
    (superLoaded : Selector)
    (hm : sel.model ≠ none) (hf : fileName ≠ "")
    (htext : superLoaded.trainOnText = sel.trainOnText)
    (hri : superLoaded.retrievalIntent = sel.retrievalIntent) :
    ∃ sel2,
      load (persist sel fileName).2 (persist sel fileName).1 superLoaded =
        Except.ok sel2 ∧
      sel2.retrievalIntentMapping = sel.retrievalIntentMapping ∧
      sel2.responses = sel.responses ∧
      ∀ label ranking message,
        process sel2 label ranking message = process sel label ranking message := by
  refine ⟨{ superLoaded with
      retrievalIntentMapping := sel.retrievalIntentMapping
      responses := sel.responses }, ?_, rfl, rfl, ?_⟩
  · simp [persist, load, hm, hf]
  · exact process_congr _ sel (by simp [htext]) (by simp) (by simp) (by simp [hri])

/-- Claim C8 witness: the round trip applied at a concrete trained
selector and superclass-loaded component. -/
theorem claim_C8_witness :
    ∃ sel2,
      load (persist c8sel "selector").2 (persist c8sel "selector").1 c8superLoaded =
        Except.ok sel2 ∧
      sel2.retrievalIntentMapping = c8sel.retrievalIntentMapping ∧
      sel2.responses = c8sel.responses ∧
      ∀ label ranking message,
        process sel2 label ranking message = process c8sel label ranking message :=
  claim_C8_persist_load_roundtrip c8sel "selector" c8superLoaded
    (by decide) (by decide) rfl rfl

/-- Claim C9: with the masked-token auxiliary head disabled, the metric
names selected for logging gain only the response stream; no mask loss or
mask accuracy entry appears, whatever the debug level, provided the
initial list holds none. -/
theorem claim_C9_no_mask_metrics (debugLogLevel : Bool) (init : List String)
    (h1 : "m_acc" ∉ init) (h2 : "m_loss" ∉ init) :
    "m_acc" ∉ updateMetricsToLog false debugLogLevel init ∧
    "m_loss" ∉ updateMetricsToLog false debugLogLevel init := by
  cases debugLogLevel <;> simp [updateMetricsToLog, h1, h2]

/-- Claim C9 witness: the statement applied at debug level with the
initial total-loss metric list. -/
theorem claim_C9_witness :
    "m_acc" ∉ updateMetricsToLog false true ["t_loss"] ∧
    "m_loss" ∉ updateMetricsToLog false true ["t_loss"] :=
  claim_C9_no_mask_metrics true ["t_loss"] (by decide) (by decide)

/-- Claim C10: on a training set yielding zero distinct labels,
preprocess_train_data still overwrites the retrieval-intent mapping and
the response registry with values derived from the filtered training
data before returning the empty model data. -/
theorem claim_C10_preprocess_overwrites_on_empty (sel : Selector) (td : TrainingData)
    (h : labelValuesFirstSeen (effectiveTrainingData sel td) sel.trainOnText = []) :
    (preprocessTrainData sel td).1.retrievalIntentMapping =
      createRetrievalIntentMapping (effectiveTrainingData sel td) ∧
    (preprocessTrainData sel td).1.responses =
      (effectiveTrainingData sel td).responses ∧
    (preprocessTrainData sel td).2 = RasaModelData.empty := by
  simp [preprocessTrainData, h]

/-- Claim C10 witness: the statement applied at a selector holding stale
fields and training data with no intent response keys. -/
theorem claim_C10_witness :
    (preprocessTrainData c10sel c10td).1.retrievalIntentMapping =
      createRetrievalIntentMapping (effectiveTrainingData c10sel c10td) ∧
    (preprocessTrainData c10sel c10td).1.responses =
      (effectiveTrainingData c10sel c10td).responses ∧
    (preprocessTrainData c10sel c10td).2 = RasaModelData.empty :=
  claim_C10_preprocess_overwrites_on_empty c10sel c10td (by decide)

end ResponseSelector
